import Mathlib

/-!
Verification of the DreamUp browser-interaction layer.

This file gives a shallow embedding of the parts of the repository that the
claims are about, and proves (or refutes) each claim against it.

Embedded sources:
* `src/unnamed/part_001` — `InteractionEngine` (`executeActions`,
  `executeAction`, `timeoutPromise`): the timeout-bounded action executor.
* `src/src/browser/browserbase-provider.ts` — `BrowserbaseSession`
  (`navigate`, `screenshot`, `clickByText`, `close`, `switchToIframe`).
* `src/src/browser/local-provider.ts` — `LocalPlaywrightSession`
  (same operations, local backend).

Modelling conventions:
* JavaScript numbers (wall-clock milliseconds, seconds, pixel sizes) are
  modelled as `ℤ`. Every quantity the claims mention is an integer (the
  repository's configs do contain a fractional `duration: 0.5` in
  `default-config.ts`, but no claim depends on fractional values or on
  floating-point rounding), and `ℤ` keeps JS subtraction and comparison
  semantics (`Date.now() - startTime` can in principle be negative).
* A rejected promise / thrown error is `Except.error m` carrying the error
  message; normal completion is `Except.ok`.
* Backend primitives (Playwright / CDP calls) are oracles: an environment
  record fixes the outcome of each underlying call, and the theorems
  quantify over all environments ("for every behaviour of the underlying
  primitive").
* `Date.now()` is modelled by an explicit clock threaded through the
  executor state; each session call advances the clock by the time the
  oracle assigns to it.
-/

set_option maxHeartbeats 1000000

namespace DreamUp

/-! ### Generic JavaScript helpers -/

/-- JS `x || d` for an optional numeric field (`undefined` and `0` are falsy). -/
def jsOrZ : Option ℤ → ℤ → ℤ
  | none, d => d
  | some x, d => if x = 0 then d else x

/-- JS `x || d` for an optional count field (`undefined` and `0` are falsy). -/
def jsOrN : Option ℕ → ℕ → ℕ
  | none, d => d
  | some x, d => if x = 0 then d else x

/-- JS falsiness of an optional string field (`undefined` and `""` are falsy). -/
def jsFalsyStr : Option String → Bool
  | none => true
  | some s => s == ""

/-- Does the character list start with `pat`? -/
def charsStartWith : List Char → List Char → Bool
  | [], _ => true
  | _ :: _, [] => false
  | a :: as, b :: bs => a == b && charsStartWith as bs

/-- Does the character list contain `pat` as a contiguous run? -/
def charsHaveSub (pat : List Char) : List Char → Bool
  | [] => charsStartWith pat []
  | c :: rest => charsStartWith pat (c :: rest) || charsHaveSub pat rest

/-- JS `s.includes(pat)`. -/
def strHasSub (pat s : String) : Bool := charsHaveSub pat.toList s.toList

/-- The executor's fatal-error test: `error.message.includes('timeout')`
(src/unnamed/part_001 line 83). -/
def msgMentionsTimeout (m : String) : Bool := strHasSub "timeout" m

/-- JS promise `.catch(() => {})`: any outcome becomes normal completion. -/
def jsCatchIgnore (e : Except String Unit) : Except String Unit :=
  match e with
  | .ok _ => .ok ()
  | .error _ => .ok ()

/-- Is an `Except` a normal (non-raising) return? -/
def isOkB {α : Type} : Except String α → Bool
  | .ok _ => true
  | .error _ => false

/-! ### InteractionEngine (src/unnamed/part_001)

`TimeoutConfig` (from `../types/config.js`, used at lines 16 and 32) carries
`load`, `action` and `total` in seconds. `ActionConfig` is the discriminated
union `{type: 'wait'|'click'|'keypress'|'screenshot', duration?, selector?,
key?, repeat?}`; optional fields are `Option`. The `default:` branch of the
`switch` is unreachable for values of the TypeScript union and is not
modelled. -/

structure TimeoutConfig where
  load : ℤ
  action : ℤ
  total : ℤ
deriving DecidableEq

inductive ActionConfig where
  | wait (duration : Option ℤ)
  | click (selector : Option String)
  | keypress (key : Option String) (repeatN : Option ℕ)
  | screenshot
deriving DecidableEq

/-- The `action.type` tag, used in the `console.warn` at line 87. -/
def actionType : ActionConfig → String
  | .wait _ => "wait"
  | .click _ => "click"
  | .keypress _ _ => "keypress"
  | .screenshot => "screenshot"

/-- A call the engine makes on its `BrowserSession`. -/
inductive SessionCall where
  | wait (ms : ℤ)
  | click (selector : String)
  | keypress (key : String)
deriving DecidableEq

/-- Oracle for the injected session: outcome and settle time of each call. -/
structure SessionBehavior where
  result : SessionCall → Except String Unit
  callTime : SessionCall → ℤ

/-- Executor-visible state: the wall clock (`Date.now()`), the session calls
issued so far (in order), and the `console.warn` log of swallowed action
failures as `(action.type, error message)` pairs. -/
structure ExecState where
  now : ℤ
  calls : List SessionCall
  warnings : List (String × String)
deriving DecidableEq

/-- `Promise.race([sessionCall, timeoutPromise(timeoutMs)])`
(src/unnamed/part_001 lines 39-42, 49-52, 61-64, 173-177): the session call is
issued either way; if it settles within `timeoutMs` its outcome wins,
otherwise the timer rejects with `'Action timeout'`. -/
def raceCall (B : SessionBehavior) (timeoutMs : ℤ) (s : ExecState)
    (c : SessionCall) : ExecState × Option String :=
  let t := B.callTime c
  if t ≤ timeoutMs then
    ({ s with now := s.now + t, calls := s.calls ++ [c] },
      match B.result c with
      | .ok _ => none
      | .error m => some m)
  else
    ({ s with now := s.now + timeoutMs, calls := s.calls ++ [c] },
      some "Action timeout")

/-- A session call awaited without a race (the `screenshot` case, line 71). -/
def plainCall (B : SessionBehavior) (s : ExecState) (c : SessionCall) :
    ExecState × Option String :=
  ({ s with now := s.now + B.callTime c, calls := s.calls ++ [c] },
    match B.result c with
    | .ok _ => none
    | .error m => some m)

/-- The `for (let i = 0; i < repeat; i++)` loop of the keypress case
(lines 60-65): each iteration races a fresh keypress against a fresh timer;
an error aborts the loop. -/
def pressLoop (B : SessionBehavior) (timeoutMs : ℤ) (key : String) :
    ℕ → ExecState → ExecState × Option String
  | 0, s => (s, none)
  | n + 1, s =>
    match raceCall B timeoutMs s (.keypress key) with
    | (s', none) => pressLoop B timeoutMs key n s'
    | (s', some m) => (s', some m)

/-- The body of `executeAction`'s `try` block up to the end of the `switch`
(lines 36-76). -/
def tryBody (B : SessionBehavior) (tc : TimeoutConfig) (s : ExecState) :
    ActionConfig → ExecState × Option String
  | .wait d =>
    let duration := jsOrZ d 1 * 1000
    raceCall B (tc.action * 1000) s (.wait duration)
  | .click sel =>
    if jsFalsyStr sel then (s, some "Click action requires a selector")
    else raceCall B (tc.action * 1000) s (.click (sel.getD ""))
  | .keypress k r =>
    if jsFalsyStr k then (s, some "Keypress action requires a key")
    else pressLoop B (tc.action * 1000) (k.getD "") (jsOrN r 1) s
  | .screenshot => plainCall B s (.wait 200)

/-- The post-switch per-action timeout message (line 80). -/
def actionTimeoutMsg (tc : TimeoutConfig) : String :=
  "Action timeout exceeded (" ++ toString tc.action ++ "s)"

/-- `InteractionEngine.executeAction` (lines 31-89): run the `try` body, apply
the post-switch elapsed check, then the `catch` that re-raises only errors
whose message includes `'timeout'` and logs (swallows) everything else. -/
def executeAction (B : SessionBehavior) (tc : TimeoutConfig) (s : ExecState)
    (a : ActionConfig) : ExecState × Option String :=
  let actionTimeout := tc.action * 1000
  let startTime := s.now
  let r := tryBody B tc s a
  let e2 : Option String :=
    match r.2 with
    | some m => some m
    | none =>
      if r.1.now - startTime > actionTimeout then some (actionTimeoutMsg tc)
      else none
  match e2 with
  | none => (r.1, none)
  | some m =>
    if msgMentionsTimeout m then (r.1, some m)
    else ({ r.1 with warnings := r.1.warnings ++ [(actionType a, m)] }, none)

/-- The total-timeout message of `executeActions` (line 21). -/
def totalTimeoutMsg (tc : TimeoutConfig) : String :=
  "Total execution timeout exceeded (" ++ toString tc.total ++ "s)"

/-- The `for (const action of actions)` loop of `executeActions`
(lines 18-25), with the start time `start` captured at entry: before each
action the elapsed time is checked against `total * 1000`, and an error from
`executeAction` propagates immediately. -/
def execLoop (B : SessionBehavior) (tc : TimeoutConfig) (start : ℤ) :
    List ActionConfig → ExecState → ExecState × Option String
  | [], s => (s, none)
  | a :: rest, s =>
    if s.now - start > tc.total * 1000 then (s, some (totalTimeoutMsg tc))
    else
      match executeAction B tc s a with
      | (s', none) => execLoop B tc start rest s'
      | (s', some m) => (s', some m)

/-- `InteractionEngine.executeActions` (lines 14-26). -/
def executeActions (B : SessionBehavior) (tc : TimeoutConfig) (s : ExecState)
    (actions : List ActionConfig) : ExecState × Option String :=
  execLoop B tc s.now actions s

/-! ### Engine helper lemmas -/

/-- A race always records the session call it issues. -/
theorem raceCall_calls (B : SessionBehavior) (timeoutMs : ℤ) (s : ExecState)
    (c : SessionCall) : (raceCall B timeoutMs s c).1.calls = s.calls ++ [c] := by
  unfold raceCall
  dsimp only
  split <;> rfl

/-- A one-iteration keypress loop issues exactly one keypress. -/
theorem pressLoop_one_calls (B : SessionBehavior) (t : ℤ) (k : String)
    (s : ExecState) :
    (pressLoop B t k 1 s).1.calls = s.calls ++ [SessionCall.keypress k] := by
  have h := raceCall_calls B t s (.keypress k)
  unfold pressLoop
  rcases hr : raceCall B t s (.keypress k) with ⟨s', e⟩
  rw [hr] at h
  cases e <;> simpa [pressLoop] using h

/-- Appending action lists: the loop runs the first list and, if that finished
without raising, continues with the second from the reached state. -/
theorem execLoop_append (B : SessionBehavior) (tc : TimeoutConfig) (start : ℤ)
    (as1 as2 : List ActionConfig) (s : ExecState) :
    execLoop B tc start (as1 ++ as2) s =
      match execLoop B tc start as1 s with
      | (s', none) => execLoop B tc start as2 s'
      | (s', some m) => (s', some m) := by
  induction as1 generalizing s with
  | nil => simp [execLoop]
  | cons a as1 ih =>
    simp only [List.cons_append, execLoop]
    split
    · rfl
    · rcases executeAction B tc s a with ⟨s', e⟩
      cases e
      · exact ih s'
      · rfl

/-! ### Claim C1 -/

/-- C1: `executeActions` captures a wall-clock start time and, before each
action, compares the elapsed time against `timeouts.total` (seconds, checked
as `total * 1000` ms). Whenever a prefix of the action list completes without
raising but leaves the elapsed time above the total timeout, the very next
action triggers the fatal `Total execution timeout exceeded` error; the error
propagates to the caller of `executeActions` and no action after the prefix
is executed (the session-call log of the final state is exactly the log the
prefix produced). -/
theorem executeActions_total_timeout
    (B : SessionBehavior) (tc : TimeoutConfig) (s s' : ExecState)
    (as1 as2 : List ActionConfig) (a : ActionConfig)
    (h1 : execLoop B tc s.now as1 s = (s', none))
    (h2 : s'.now - s.now > tc.total * 1000) :
    executeActions B tc s (as1 ++ a :: as2) = (s', some (totalTimeoutMsg tc)) ∧
    (executeActions B tc s (as1 ++ a :: as2)).1.calls = s'.calls := by
  have h3 : executeActions B tc s (as1 ++ a :: as2) =
      (s', some (totalTimeoutMsg tc)) := by
    unfold executeActions
    rw [execLoop_append, h1]
    simp [execLoop, h2]
  exact ⟨h3, by rw [h3]⟩

/-- A session whose calls all succeed: waits settle after their requested
duration, clicks after 100ms, keypresses after 50ms. -/
def nominalSession : SessionBehavior where
  result := fun _ => .ok ()
  callTime := fun c =>
    match c with
    | .wait ms => ms
    | .click _ => 100
    | .keypress _ => 50

/-- Timeouts with a 1-second total budget. -/
def tcShortTotal : TimeoutConfig := ⟨30, 10, 1⟩

/-- The executor's initial state: clock at 0, nothing logged. -/
def execStart : ExecState := ⟨0, [], []⟩

/-- Witness for C1: a 5-second `wait` exhausts the 1-second total budget, so
the following action raises the total-timeout error without being executed. -/
theorem executeActions_total_timeout_witness :
    execLoop nominalSession tcShortTotal execStart.now
        [ActionConfig.wait (some 5)] execStart =
      (⟨5000, [SessionCall.wait 5000], []⟩, none) ∧
    (⟨5000, [SessionCall.wait 5000], []⟩ : ExecState).now - execStart.now >
      tcShortTotal.total * 1000 ∧
    executeActions nominalSession tcShortTotal execStart
        ([ActionConfig.wait (some 5)] ++ ActionConfig.wait (some 1) :: []) =
      (⟨5000, [SessionCall.wait 5000], []⟩, some (totalTimeoutMsg tcShortTotal)) := by
  refine ⟨by decide, by decide, ?_⟩
  exact (executeActions_total_timeout nominalSession tcShortTotal execStart
    ⟨5000, [SessionCall.wait 5000], []⟩ [ActionConfig.wait (some 5)] []
    (ActionConfig.wait (some 1)) (by decide) (by decide)).1

/-! ### Claim C2 -/

/-- The mock session of the end-to-end scenario: `click("#play")` throws
`element not found`; every other call succeeds. Waits settle after their
requested duration, clicks after 100ms, keypresses after 50ms. -/
def scenarioSession : SessionBehavior where
  result := fun c =>
    match c with
    | .click "#play" => .error "element not found"
    | _ => .ok ()
  callTime := fun c =>
    match c with
    | .wait ms => ms
    | .click _ => 100
    | .keypress _ => 50

/-- The timeout configuration of the end-to-end scenario. -/
def scenarioTc : TimeoutConfig := ⟨30, 10, 60⟩

/-- C2: during action execution, an error raised by an individual action's
body is re-raised (aborting the sequence, with no further action executed)
exactly when its message contains `'timeout'`; any other error is caught,
logged as a `console.warn` entry, and the loop continues with the remaining
actions. In particular, the end-to-end scenario
`[wait 1, click "#play", keypress ArrowRight repeat 1]` against a session
whose `click("#play")` throws `element not found` completes normally (no
raised error, i.e. `Completed` rather than `TimedOut`), logs the click
failure, and invokes `wait`, `click` and `keypress` exactly once each. -/
theorem action_error_policy
    (B : SessionBehavior) (tc : TimeoutConfig) (s s₁ : ExecState) (start : ℤ)
    (a : ActionConfig) (msg : String) (rest : List ActionConfig)
    (hbody : tryBody B tc s a = (s₁, some msg))
    (htot : ¬ s.now - start > tc.total * 1000) :
    (msgMentionsTimeout msg = true →
      execLoop B tc start (a :: rest) s = (s₁, some msg)) ∧
    (msgMentionsTimeout msg = false →
      execLoop B tc start (a :: rest) s =
        execLoop B tc start rest
          { s₁ with warnings := s₁.warnings ++ [(actionType a, msg)] }) ∧
    executeActions scenarioSession scenarioTc ⟨0, [], []⟩
        [ActionConfig.wait (some 1), ActionConfig.click (some "#play"),
         ActionConfig.keypress (some "ArrowRight") (some 1)] =
      (⟨1150,
        [SessionCall.wait 1000, SessionCall.click "#play",
         SessionCall.keypress "ArrowRight"],
        [("click", "element not found")]⟩, none) := by
  refine ⟨?_, ?_, by decide⟩
  · intro hT
    simp [execLoop, htot, executeAction, hbody, hT]
  · intro hF
    simp [execLoop, htot, executeAction, hbody, hF]

/-- Witness for C2: the non-timeout branch applied to the concrete scenario
session — the failed `click("#play")` is logged and the loop continues. -/
theorem action_error_policy_witness :
    msgMentionsTimeout "element not found" = false ∧
    execLoop scenarioSession scenarioTc 0
        [ActionConfig.click (some "#play")] ⟨0, [], []⟩ =
      execLoop scenarioSession scenarioTc 0 []
        ⟨100, [SessionCall.click "#play"], [("click", "element not found")]⟩ := by
  refine ⟨by decide, ?_⟩
  have h := (action_error_policy scenarioSession scenarioTc ⟨0, [], []⟩
    ⟨100, [SessionCall.click "#play"], []⟩ 0 (ActionConfig.click (some "#play"))
    "element not found" [] (by decide) (by decide)).2.1 (by decide)
  exact h

/-! ### Claim C3 -/

/-- The configuration-error message contains no `'timeout'` substring, so the
per-action catch treats it as a recoverable failure. -/
theorem selectorMsg_not_timeout :
    msgMentionsTimeout "Click action requires a selector" = false := by decide

/-- C3 counterexample: a `click` action whose selector is absent does NOT
raise a fatal, propagating error. The thrown `Click action requires a
selector` lands in `executeAction`'s own catch (its message does not contain
`'timeout'`), is logged like an ordinary per-action failure, and the
following `wait` action still executes; `executeActions` returns normally. -/
theorem click_without_selector_swallowed_cex :
    executeActions scenarioSession scenarioTc ⟨0, [], []⟩
        [ActionConfig.click none, ActionConfig.wait (some 1)] =
      (⟨1000, [SessionCall.wait 1000],
        [("click", "Click action requires a selector")]⟩, none) := by decide

/-- C3 amended: for every selector-less `click`, the executor raises the
`Click action requires a selector` configuration error inside its `try`, the
per-action catch swallows and logs it (the message does not include
`'timeout'`), and the loop continues with the remaining actions — the error
is swallowed exactly like ordinary per-action failures, not propagated. -/
theorem click_without_selector_logged
    (B : SessionBehavior) (tc : TimeoutConfig) (s : ExecState) (start : ℤ)
    (rest : List ActionConfig)
    (htot : ¬ s.now - start > tc.total * 1000) :
    execLoop B tc start (ActionConfig.click none :: rest) s =
      execLoop B tc start rest
        { s with warnings :=
            s.warnings ++ [("click", "Click action requires a selector")] } := by
  simp [execLoop, htot, executeAction, tryBody, jsFalsyStr, actionType,
    selectorMsg_not_timeout]

/-- Witness for C3's amended theorem at a concrete configuration. -/
theorem click_without_selector_logged_witness :
    execLoop scenarioSession scenarioTc 0 [ActionConfig.click none] ⟨0, [], []⟩ =
      execLoop scenarioSession scenarioTc 0 []
        ⟨0, [], [("click", "Click action requires a selector")]⟩ :=
  click_without_selector_logged scenarioSession scenarioTc ⟨0, [], []⟩ 0 []
    (by decide)

/-! ### Claim C10 -/

/-- C10: the executor's defaults for omitted numeric fields go through JS
falsy checks (`action.duration || 1` at line 38, `action.repeat || 1` at
line 59). A `wait` whose duration is omitted or `0` issues
`session.wait(1000)` — exactly one second — and is indistinguishable from
`duration: 1`; a `keypress` whose repeat is omitted or `0` issues exactly one
keypress and is indistinguishable from `repeat: 1`. -/
theorem engine_falsy_defaults
    (B : SessionBehavior) (tc : TimeoutConfig) (s : ExecState) (k : String)
    (hk : ¬ k = "") :
    executeAction B tc s (.wait none) = executeAction B tc s (.wait (some 1)) ∧
    executeAction B tc s (.wait (some 0)) =
      executeAction B tc s (.wait (some 1)) ∧
    (tryBody B tc s (.wait none)).1.calls = s.calls ++ [SessionCall.wait 1000] ∧
    (tryBody B tc s (.wait (some 0))).1.calls =
      s.calls ++ [SessionCall.wait 1000] ∧
    executeAction B tc s (.keypress (some k) none) =
      executeAction B tc s (.keypress (some k) (some 1)) ∧
    executeAction B tc s (.keypress (some k) (some 0)) =
      executeAction B tc s (.keypress (some k) (some 1)) ∧
    (tryBody B tc s (.keypress (some k) none)).1.calls =
      s.calls ++ [SessionCall.keypress k] := by
  have hwait : ∀ d : Option ℤ, jsOrZ d 1 = 1 → tryBody B tc s (.wait d) =
      raceCall B (tc.action * 1000) s (.wait 1000) := by
    intro d hd
    simp [tryBody, hd]
  have h0 : jsOrZ none 1 = 1 := rfl
  have h0' : jsOrZ (some 0) 1 = 1 := rfl
  have h1 : jsOrZ (some 1) 1 = 1 := by simp [jsOrZ]
  have hkf : jsFalsyStr (some k) = false := by
    simp [jsFalsyStr, hk]
  have hrep : ∀ r : Option ℕ, jsOrN r 1 = 1 →
      tryBody B tc s (.keypress (some k) r) =
        pressLoop B (tc.action * 1000) k 1 s := by
    intro r hr
    simp [tryBody, hkf, hr]
  have hcongr : ∀ a b : ActionConfig, tryBody B tc s a = tryBody B tc s b →
      actionType a = actionType b →
      executeAction B tc s a = executeAction B tc s b := by
    intro a b hab htype
    unfold executeAction
    rw [hab, htype]
  refine ⟨?_, ?_, ?_, ?_, ?_, ?_, ?_⟩
  · exact hcongr _ _ (by rw [hwait none h0, hwait (some 1) h1]) rfl
  · exact hcongr _ _ (by rw [hwait (some 0) h0', hwait (some 1) h1]) rfl
  · rw [hwait none h0, raceCall_calls]
  · rw [hwait (some 0) h0', raceCall_calls]
  · exact hcongr _ _ (by rw [hrep none rfl, hrep (some 1) (by simp [jsOrN])]) rfl
  · exact hcongr _ _
      (by rw [hrep (some 0) rfl, hrep (some 1) (by simp [jsOrN])]) rfl
  · rw [hrep none rfl, pressLoop_one_calls]

/-- Witness for C10 at a concrete key. -/
theorem engine_falsy_defaults_witness :
    executeAction nominalSession scenarioTc execStart (.wait none) =
      executeAction nominalSession scenarioTc execStart (.wait (some 1)) ∧
    (tryBody nominalSession scenarioTc execStart
        (.keypress (some "ArrowRight") none)).1.calls =
      [SessionCall.keypress "ArrowRight"] := by
  have h := engine_falsy_defaults nominalSession scenarioTc execStart
    "ArrowRight" (by decide)
  exact ⟨h.1, by
    have h7 := h.2.2.2.2.2.2
    simpa [execStart] using h7⟩

/-! ### Session.navigate

`BrowserbaseSession.navigate` (browserbase-provider.ts lines 572-618) and
`LocalPlaywrightSession.navigate` (local-provider.ts lines 109-121). The
underlying `page.goto` tiers and SDK fallback are oracles; the trace records
the `console.warn` messages and the final settle wait. -/

/-- What a navigation run leaves behind: warnings logged and the trailing
settle wait issued. -/
structure NavTrace where
  warnings : List String
  waitedMs : ℤ
deriving DecidableEq

/-- Outcomes of the primitives `BrowserbaseSession.navigate` touches. -/
structure BBNavEnv where
  /-- `ensureCDPConnection()` (line 578; may throw). -/
  cdp : Except String Unit
  /-- Is `this.page` set? -/
  pagePresent : Bool
  /-- `page.goto(url, {waitUntil: 'domcontentloaded', timeout: 45000})`. -/
  gotoDom : Except String Unit
  /-- `page.goto(url, {waitUntil: 'commit', timeout: 60000})`. -/
  gotoCommit : Except String Unit
  /-- `page.goto(url, {timeout: 10000})`, final tier, errors ignored. -/
  gotoPlain : Except String Unit
  /-- `client.loadURL(url, ...)`, the SDK fallback when no page handle. -/
  loadURL : Except String Unit

/-- The `try` block of `BrowserbaseSession.navigate` (lines 576-612): tiered
degradation over the goto oracles; only `ensureCDPConnection` and `loadURL`
can throw out of it (every goto tier has its own handler). -/
def bbNavigateTry (env : BBNavEnv) : Except String NavTrace :=
  match env.cdp with
  | .error m => .error m
  | .ok _ =>
    if env.pagePresent then
      match env.gotoDom with
      | .ok _ => .ok ⟨[], 2000⟩
      | .error _ =>
        match env.gotoCommit with
        | .ok _ => .ok ⟨["Navigation timeout with domcontentloaded, trying commit..."],
            3000⟩
        | .error _ =>
          .ok ⟨["Navigation timeout with domcontentloaded, trying commit...",
                "Navigation failed, attempting without wait..."], 3000⟩
    else
      match env.loadURL with
      | .ok _ => .ok ⟨[], 3000⟩
      | .error m => .error m

/-- `BrowserbaseSession.navigate` (lines 572-618): the `try` block wrapped in
the outer catch that logs a warning and settles for 3s instead of raising. -/
def bbNavigate (env : BBNavEnv) : Except String NavTrace :=
  match bbNavigateTry env with
  | .ok t => .ok t
  | .error m => .ok ⟨["Navigation warning: " ++ m], 3000⟩

/-- The `try` block of `LocalPlaywrightSession.navigate` (lines 111-116). -/
def localNavigateTry (gotoRes : Except String Unit) : Except String NavTrace :=
  match gotoRes with
  | .ok _ => .ok ⟨[], 2000⟩
  | .error m => .error m

/-- `LocalPlaywrightSession.navigate` (lines 109-121): goto under a catch
that warns and settles for 3s instead of raising. -/
def localNavigate (gotoRes : Except String Unit) : Except String NavTrace :=
  match localNavigateTry gotoRes with
  | .ok t => .ok t
  | .error m => .ok ⟨["Navigation warning: " ++ m], 3000⟩

/-- C4: for every URL load behaviour — success, timeout or thrown error at
any fallback tier, with or without a page handle — `Session.navigate` returns
normally and never raises to its caller, in both the Browserbase and the
local variant. -/
theorem navigate_never_raises :
    (∀ env : BBNavEnv, isOkB (bbNavigate env) = true) ∧
    (∀ gotoRes : Except String Unit, isOkB (localNavigate gotoRes) = true) := by
  constructor
  · intro env
    unfold bbNavigate
    cases bbNavigateTry env <;> rfl
  · intro gotoRes
    unfold localNavigate
    cases localNavigateTry gotoRes <;> rfl

/-! ### Session.close

`BrowserbaseSession.close` (browserbase-provider.ts lines 1154-1172) and
`LocalPlaywrightSession.close` (local-provider.ts lines 248-258). -/

/-- Outcomes of the teardown primitives a Browserbase close touches. -/
structure BBCloseEnv where
  /-- `cdpSession.detach()`. -/
  detach : Except String Unit
  /-- `browser.close()`. -/
  browserClose : Except String Unit
  /-- `client.completeSession(sessionId)` — the remote release. -/
  completeSession : Except String Unit

/-- The nullable connection fields of a `BrowserbaseSession`. -/
structure BBConnState where
  cdpSession : Bool
  browser : Bool
  page : Bool
deriving DecidableEq

/-- Result of one `close()` call: the fields afterwards, the warnings logged,
how many times `completeSession` was invoked during the call, and whether the
call raised. -/
structure BBCloseOutcome where
  st : BBConnState
  warnings : List String
  completeCalls : ℕ
  result : Except String Unit

/-- The `try` block of `BrowserbaseSession.close` (lines 1156-1168): detach
the CDP session and close the browser handle, nulling each field only after
its call returns; any throw jumps to the catch, which logs and keeps the
remaining fields as they were. -/
def bbCloseTry (env : BBCloseEnv) (st : BBConnState) : BBConnState × List String :=
  match (if st.cdpSession then env.detach else .ok ()) with
  | .error m => (st, ["Error closing CDP connections: " ++ m])
  | .ok _ =>
    let st1 : BBConnState := { st with cdpSession := false }
    match (if st1.browser then env.browserClose else .ok ()) with
    | .error m => (st1, ["Error closing CDP connections: " ++ m])
    | .ok _ => ({ st1 with browser := false, page := false }, [])

/-- `BrowserbaseSession.close` (lines 1154-1172): after the guarded CDP
teardown, `client.completeSession(sessionId)` is awaited unconditionally and
OUTSIDE any try/catch — it runs on every call, first or repeated, and its
rejection propagates to the caller. -/
def bbClose (env : BBCloseEnv) (st : BBConnState) : BBCloseOutcome :=
  let t := bbCloseTry env st
  ⟨t.1, t.2, 1, env.completeSession⟩

/-- Outcomes of the teardown primitives a local close touches. -/
structure LocalCloseEnv where
  detach : Except String Unit
  contextClose : Except String Unit
  browserClose : Except String Unit

/-- Result of one local `close()` call: how many times `context.close()` and
`browser.close()` were invoked during the call, and whether it raised. -/
structure LocalCloseOutcome where
  contextCloseCalls : ℕ
  browserCloseCalls : ℕ
  result : Except String Unit

/-- The `try` body of `LocalPlaywrightSession.close` (lines 249-254): each
teardown call carries `.catch(() => {})`, so none of them can throw. -/
def localCloseTry (env : LocalCloseEnv) (hasCdp : Bool) : Except String Unit := do
  let _ ← (if hasCdp then jsCatchIgnore env.detach else Except.ok ())
  let _ ← jsCatchIgnore env.contextClose
  let _ ← jsCatchIgnore env.browserClose
  Except.ok ()

/-- `LocalPlaywrightSession.close` (lines 248-258): the session holds no
"already closed" flag and nulls no field, so every call — first or repeated —
invokes `context.close()` and `browser.close()` again; all errors are
swallowed and the call always returns normally. -/
def localClose (env : LocalCloseEnv) (hasCdp : Bool) : LocalCloseOutcome :=
  match localCloseTry env hasCdp with
  | .ok _ => ⟨1, 1, .ok ()⟩
  | .error _ => ⟨1, 1, .ok ()⟩

/-- A Browserbase close environment where every primitive succeeds. -/
def closeEnvOk : BBCloseEnv := ⟨.ok (), .ok (), .ok ()⟩

/-- A Browserbase close environment for a second call: the remote API rejects
re-completion of an already-completed session. -/
def closeEnvDone : BBCloseEnv := ⟨.ok (), .ok (), .error "Session already completed"⟩

/-- A fully connected Browserbase session. -/
def stConnected : BBConnState := ⟨true, true, true⟩

/-- C5 counterexample: `close()` is NOT idempotent in the Browserbase
variant. After a first, fully successful close, a second close still invokes
`client.completeSession` (it runs unconditionally, outside the try/catch) —
re-attempting to release the already-freed remote session — and when the
remote API rejects that re-completion the second `close()` raises to its
caller. -/
theorem close_not_idempotent_cex :
    (bbClose closeEnvOk stConnected).result = .ok () ∧
    (bbClose closeEnvOk stConnected).st = ⟨false, false, false⟩ ∧
    (bbClose closeEnvDone (bbClose closeEnvOk stConnected).st).completeCalls = 1 ∧
    (bbClose closeEnvDone (bbClose closeEnvOk stConnected).st).result =
      .error "Session already completed" := by
  refine ⟨rfl, by decide, rfl, rfl⟩

/-- C5 amended: a second `close()` returns normally in the local variant —
every teardown error is swallowed — but both variants re-attempt to release
backend resources on every call: the local close re-invokes `context.close()`
and `browser.close()` each time, and the Browserbase close invokes
`client.completeSession` on every call, outside its try/catch, so any
rejection of that re-release propagates to the caller. -/
theorem close_second_call_behavior
    (env env2 : BBCloseEnv) (st : BBConnState)
    (lenv : LocalCloseEnv) (hasCdp : Bool) (m : String)
    (h : env2.completeSession = .error m) :
    (localClose lenv hasCdp).result = .ok () ∧
    (localClose lenv hasCdp).contextCloseCalls = 1 ∧
    (localClose lenv hasCdp).browserCloseCalls = 1 ∧
    (bbClose env2 (bbClose env st).st).completeCalls = 1 ∧
    (bbClose env2 (bbClose env st).st).result = .error m := by
  refine ⟨?_, ?_, ?_, rfl, by simp [bbClose, h]⟩ <;>
    · unfold localClose
      cases localCloseTry lenv hasCdp <;> rfl

/-- Witness for C5's amended theorem at a concrete environment. -/
theorem close_second_call_behavior_witness :
    (localClose ⟨.ok (), .ok (), .ok ()⟩ true).result = .ok () ∧
    (bbClose closeEnvDone (bbClose closeEnvOk stConnected).st).result =
      .error "Session already completed" := by
  have h := close_second_call_behavior closeEnvOk closeEnvDone stConnected
    ⟨.ok (), .ok (), .ok ()⟩ true "Session already completed" rfl
  exact ⟨h.1, h.2.2.2.2⟩

/-! ### Session.screenshot — animation settle wait

The in-page settle script of `BrowserbaseSession.screenshot`
(browserbase-provider.ts lines 668-684) and of
`LocalPlaywrightSession.screenshot` (local-provider.ts lines 128-144).
`durations` is the list of `(timing?.duration || 0)` values of
`document.getAnimations()` (the Web Animations API reports milliseconds;
both scripts multiply by 1000 before adding the 100ms buffer). -/

/-- JS `Math.max(...)` over the mapped list (only used when nonempty). -/
def listMax : List ℤ → ℤ
  | [] => 0
  | d :: ds => max d (listMax ds)

/-- The settle wait (ms) the Browserbase screenshot script schedules:
`animations.length > 0 ? Math.max(maxDuration + 100, 300) : 300`
(lines 672-683) — a 300ms FLOOR, with no upper cap. -/
def bbAnimationWaitMs (durations : List ℤ) : ℤ :=
  if durations.length > 0 then
    max (listMax (durations.map fun d => d * 1000) + 100) 300
  else 300

/-- The settle wait (ms) the local screenshot script schedules:
`animations.length > 0 ? Math.min(maxDuration + 100, 500) : 200`
(lines 132-141) — capped at 500ms. -/
def localAnimationWaitMs (durations : List ℤ) : ℤ :=
  if durations.length > 0 then
    min (listMax (durations.map fun d => d * 1000) + 100) 500
  else 200

/-- C6 counterexample: the wait before capture is NOT capped in the 300-500ms
range in both variants. With the claim's two active animations of 150ms and
400ms, the Browserbase variant waits `max(400 * 1000 + 100, 300) = 400100` ms
(`Math.max` is a floor, not a cap; the script also multiplies the
already-millisecond duration by 1000), which exceeds 500ms — above every cap
in the claimed range. -/
theorem screenshot_wait_cap_cex :
    bbAnimationWaitMs [150, 400] = 400100 ∧
    ¬ bbAnimationWaitMs [150, 400] ≤ 500 := by decide

/-- C6 amended: only the local variant caps the settle wait — it waits
`min(1000 * longest + 100, 500)` ms, so never more than 500ms, and on the
claim's concrete animations (150ms and 400ms) it waits exactly the 500ms cap
(which is ≥ 400ms). The Browserbase variant instead applies
`max(1000 * longest + 100, 300)`: a 300ms floor with no upper cap, waiting
400100 ms on the same concrete input. -/
theorem screenshot_wait_amended :
    (∀ ds : List ℤ, localAnimationWaitMs ds ≤ 500) ∧
    (∀ ds : List ℤ, 300 ≤ bbAnimationWaitMs ds) ∧
    localAnimationWaitMs [150, 400] = 500 ∧
    (400 : ℤ) ≤ localAnimationWaitMs [150, 400] ∧
    bbAnimationWaitMs [150, 400] = 400100 ∧
    (400 : ℤ) ≤ bbAnimationWaitMs [150, 400] := by
  refine ⟨?_, ?_, by decide, by decide, by decide, by decide⟩
  · intro ds
    unfold localAnimationWaitMs
    split
    · exact min_le_right _ _
    · decide
  · intro ds
    unfold bbAnimationWaitMs
    split
    · exact le_max_right _ _
    · decide

/-! ### Session.clickByText

`BrowserbaseSession.clickByText` (browserbase-provider.ts lines 836-947) and
`LocalPlaywrightSession.clickByText` (local-provider.ts lines 182-210). The
Playwright locator strategies are oracles; the Browserbase final fallback —
the manual DOM scan of lines 900-935 — is repository code and is embedded in
full, including its whitespace normalization. -/

/-- JS `replace(/\s+/g, ' ')`: collapse every maximal whitespace run
(spaces, newlines, tabs) into a single space. `prevWs` records whether the
previous character belonged to a run already replaced. -/
def collapseWsAux : Bool → List Char → List Char
  | _, [] => []
  | prevWs, c :: cs =>
    if c.isWhitespace then
      (if prevWs then collapseWsAux true cs else ' ' :: collapseWsAux true cs)
    else c :: collapseWsAux false cs

/-- JS `trim()` on the right. -/
def dropTrailingSpaces (l : List Char) : List Char :=
  (l.reverse.dropWhile Char.isWhitespace).reverse

/-- JS `s.replace(/\s+/g, ' ').trim()` — the whitespace normalization used by
the local `clickByText` on its query (local-provider.ts line 184) and by the
Browserbase DOM-scan fallback on both sides of its match. -/
def jsNormalizeWs (s : String) : String :=
  ⟨dropTrailingSpaces ((collapseWsAux false s.toList).dropWhile Char.isWhitespace)⟩

/-- JS `toLowerCase()`. -/
def lowerStr (s : String) : String := ⟨s.toList.map Char.toLower⟩

/-- `targetText.toLowerCase().replace(/\s+/g, ' ').trim()` (line 904). -/
def bbNormTarget (t : String) : String := jsNormalizeWs (lowerStr t)

/-- `(btn.textContent || btn.innerText || '').replace(/\s+/g, ' ').trim()
.toLowerCase()` (lines 911-914). -/
def bbNormButton (t : String) : String := lowerStr (jsNormalizeWs t)

/-- A `<button>` as the fallback scan sees it: its text content, whether
`offsetParent !== null`, and whether `.click()` / the dispatched
`MouseEvent` succeed. -/
structure DomButton where
  text : String
  visible : Bool
  clickOk : Bool
  dispatchOk : Bool
deriving DecidableEq

/-- The `for (const btn of buttons)` scan of the Browserbase fallback
(lines 906-934): the first visible button whose normalized text contains the
normalized target is clicked (native click, then a bubbling `MouseEvent`);
if both click paths throw, the scan continues with the next button. -/
def bbScanButtons (target : String) : List DomButton → Bool
  | [] => false
  | b :: rest =>
    if b.visible && strHasSub (bbNormTarget target) (bbNormButton b.text) then
      if b.clickOk then true
      else if b.dispatchOk then true
      else bbScanButtons target rest
    else bbScanButtons target rest

/-- Outcomes of the primitives `BrowserbaseSession.clickByText` touches.
`s1`-`s4` are the four Playwright locator strategies (getByRole, getByText,
filtered button locator, XPath locator — lines 845-896), each `true` when it
located and clicked a visible element and `false` when it threw or found
nothing; `evalOk` is whether the final `page.evaluate` fallback itself
resolves. -/
structure BBClickEnv where
  cdp : Except String Unit
  pagePresent : Bool
  s1 : Bool
  s2 : Bool
  s3 : Bool
  s4 : Bool
  evalOk : Bool
  buttons : List DomButton

/-- The `try` block of `BrowserbaseSession.clickByText` (lines 837-942). -/
def bbClickByTextTry (env : BBClickEnv) (text : String) : Except String Bool :=
  match env.cdp with
  | .error m => .error m
  | .ok _ =>
    if !env.pagePresent then .ok false
    else if env.s1 then .ok true
    else if env.s2 then .ok true
    else if env.s3 then .ok true
    else if env.s4 then .ok true
    else if !env.evalOk then .error "page.evaluate failed"
    else .ok (bbScanButtons text env.buttons)

/-- `BrowserbaseSession.clickByText` (lines 836-947): the `try` block wrapped
in the outer catch that logs and returns `false` instead of raising. -/
def bbClickByText (env : BBClickEnv) (text : String) : Except String Bool :=
  match bbClickByTextTry env text with
  | .ok b => .ok b
  | .error _ => .ok false

/-- Outcomes of the primitives `LocalPlaywrightSession.clickByText` touches:
`focus` is `page.focus('body')`; `s1Visible`/`s1Click` are the
`getByText(normalizedText)` strategy (visibility probe with `.catch(false)`,
then a click that may throw); `xpathEls` are the XPath-matched elements as
`(isVisible, click outcome)` pairs. The query string handed to both locator
strategies is `jsNormalizeWs text` (line 184); the matching itself happens
inside Playwright and is part of the oracle. -/
structure LocalClickEnv where
  focus : Except String Unit
  s1Visible : Bool
  s1Click : Except String Unit
  xpathEls : List (Bool × Except String Unit)

/-- The XPath fallback loop of the local `clickByText` (lines 196-204):
click the first visible match; a click that throws escapes to the outer
catch. -/
def localXpathLoop : List (Bool × Except String Unit) → Except String Bool
  | [] => .ok false
  | (vis, clickRes) :: rest =>
    if vis then
      match clickRes with
      | .ok _ => .ok true
      | .error m => .error m
    else localXpathLoop rest

/-- The `try` block of `LocalPlaywrightSession.clickByText`
(lines 183-206). -/
def localClickByTextTry (env : LocalClickEnv) : Except String Bool :=
  match env.focus with
  | .error m => .error m
  | .ok _ =>
    if env.s1Visible then
      match env.s1Click with
      | .ok _ => .ok true
      | .error m => .error m
    else localXpathLoop env.xpathEls

/-- `LocalPlaywrightSession.clickByText` (lines 182-210): the `try` block
wrapped in the catch that returns `false` instead of raising. -/
def localClickByText (env : LocalClickEnv) : Except String Bool :=
  match localClickByTextTry env with
  | .ok b => .ok b
  | .error _ => .ok false

/-- A page whose only button has text `"  Play  \n"` and is visible and
clickable; the Playwright locator strategies all miss, exercising the
repository's own DOM-scan fallback. -/
def envPlayButton : BBClickEnv :=
  ⟨.ok (), true, false, false, false, false, true, [⟨"  Play  \n", true, true, true⟩]⟩

/-- A page with no buttons at all (and no locator strategy succeeding). -/
def envNoButtons : BBClickEnv :=
  ⟨.ok (), true, false, false, false, false, true, []⟩

/-- C7: `clickByText` always returns a boolean and never raises, in both
variants, whatever the locator strategies and click primitives do; its text
matching normalizes whitespace — the query normalization `jsNormalizeWs`
maps `"  Play  \n"` to `"Play"`, the Browserbase DOM-scan fallback matches
the button whose text is `"  Play  \n"` against the query `"Play"` and
returns `true` — and with no matching element both variants return
`false`. -/
theorem clickByText_contract :
    (∀ (env : BBClickEnv) (text : String), isOkB (bbClickByText env text) = true) ∧
    (∀ env : LocalClickEnv, isOkB (localClickByText env) = true) ∧
    jsNormalizeWs "  Play  \n" = "Play" ∧
    strHasSub (bbNormTarget "Play") (bbNormButton "  Play  \n") = true ∧
    bbClickByText envPlayButton "Play" = .ok true ∧
    bbClickByText envNoButtons "Play" = .ok false ∧
    localClickByText ⟨.ok (), false, .ok (), []⟩ = .ok false := by
  refine ⟨?_, ?_, by decide, by decide, rfl, rfl, rfl⟩
  · intro env text
    unfold bbClickByText
    cases bbClickByTextTry env text <;> rfl
  · intro env
    unfold localClickByText
    cases localClickByTextTry env <;> rfl

/-! ### Session.switchToIframe

`BrowserbaseSession.switchToIframe` (browserbase-provider.ts lines
1174-1230) and `LocalPlaywrightSession.switchToIframe` (local-provider.ts
lines 260-302): the selector-less path of both variants runs the identical
scan — collect all `iframe` elements, keep the largest bounding-box area
above `400 * 400`, and enter its content frame. -/

/-- An `iframe` element as the scan sees it: bounding-box dimensions (when
`boundingBox()` returns one) and whether `contentFrame()` is non-null. -/
structure IframeInfo where
  width : ℤ
  height : ℤ
  hasBox : Bool
  hasFrame : Bool
deriving DecidableEq

/-- `box.width * box.height`. -/
def areaOf (i : IframeInfo) : ℤ := i.width * i.height

/-- The `for (const iframe of iframes)` scan (browserbase lines 1205-1214,
local lines 279-288): track the running `maxArea` and `largestIframe`,
updating on `area > maxArea && area > 400 * 400`. -/
def scanIframes : List IframeInfo → ℤ → Option IframeInfo → Option IframeInfo
  | [], _, best => best
  | i :: rest, maxArea, best =>
    if i.hasBox then
      (if areaOf i > maxArea ∧ areaOf i > 400 * 400 then
        scanIframes rest (areaOf i) (some i)
      else scanIframes rest maxArea best)
    else scanIframes rest maxArea best

/-- Primitive outcomes for a `switchToIframe()` call without a selector:
whether any backend call (`$$`, `boundingBox`, `contentFrame`, the CDP
bring-up in the Browserbase variant) threw, and the iframes found. -/
structure IframeEnv where
  opsFail : Bool
  iframes : List IframeInfo
deriving DecidableEq

/-- The `try` block of the selector-less `switchToIframe` (browserbase lines
1196-1225, local lines 273-298): empty list means `false`; otherwise the
scan winner's content frame is entered when present. The returned pair is
`(boolean result, frame entered — none means the session stays on the main
document)`. -/
def switchToIframeTry (env : IframeEnv) :
    Except String (Bool × Option IframeInfo) :=
  if env.opsFail then .error "iframe scan failed"
  else if env.iframes.length = 0 then .ok (false, none)
  else
    match scanIframes env.iframes 0 none with
    | some i => if i.hasFrame then .ok (true, some i) else .ok (false, none)
    | none => .ok (false, none)

/-- `switchToIframe()` without a selector: the `try` block wrapped in the
catch that returns `false` instead of raising (browserbase lines 1226-1229,
local lines 299-301). -/
def switchToIframe (env : IframeEnv) :
    Except String (Bool × Option IframeInfo) :=
  match switchToIframeTry env with
  | .ok r => .ok r
  | .error _ => .ok (false, none)

/-- The scan's winner has area at least the starting `maxArea`, provided the
starting candidate does. -/
theorem scanIframes_ge (l : List IframeInfo) (m : ℤ) (b : Option IframeInfo)
    (i : IframeInfo) (hb : ∀ j, b = some j → m ≤ areaOf j)
    (h : scanIframes l m b = some i) : m ≤ areaOf i := by
  induction l generalizing m b with
  | nil => exact hb i h
  | cons j rest ih =>
    by_cases hbox : j.hasBox = true
    · by_cases hcond : areaOf j > m ∧ areaOf j > 400 * 400
      · simp only [scanIframes, hbox, if_true, if_pos hcond] at h
        have := ih (areaOf j) (some j) (fun k hk => by cases hk; exact le_refl _) h
        exact le_trans (le_of_lt hcond.1) this
      · simp only [scanIframes, hbox, if_true, if_neg hcond] at h
        exact ih m b hb h
    · simp only [scanIframes, hbox, if_false] at h
      exact ih m b hb h

/-- The scan's winner is above the `400 * 400` threshold, provided the
starting candidate is. -/
theorem scanIframes_thresh (l : List IframeInfo) (m : ℤ) (b : Option IframeInfo)
    (i : IframeInfo) (hb : ∀ j, b = some j → areaOf j > 400 * 400)
    (h : scanIframes l m b = some i) : areaOf i > 400 * 400 := by
  induction l generalizing m b with
  | nil => exact hb i h
  | cons j rest ih =>
    by_cases hbox : j.hasBox = true
    · by_cases hcond : areaOf j > m ∧ areaOf j > 400 * 400
      · simp only [scanIframes, hbox, if_true, if_pos hcond] at h
        exact ih (areaOf j) (some j) (fun k hk => by cases hk; exact hcond.2) h
      · simp only [scanIframes, hbox, if_true, if_neg hcond] at h
        exact ih m b hb h
    · simp only [scanIframes, hbox, if_false] at h
      exact ih m b hb h

/-- The scan's winner dominates every boxed iframe in the list, up to the
threshold: any boxed iframe either has area at most the winner's, or sits at
or below `400 * 400`. -/
theorem scanIframes_max (l : List IframeInfo) (m : ℤ) (b : Option IframeInfo)
    (i : IframeInfo) (hb : ∀ j, b = some j → m ≤ areaOf j)
    (h : scanIframes l m b = some i) :
    ∀ j ∈ l, j.hasBox = true → areaOf j ≤ areaOf i ∨ areaOf j ≤ 400 * 400 := by
  induction l generalizing m b with
  | nil => intro j hj; cases hj
  | cons j0 rest ih =>
    intro j hj hjbox
    rcases List.mem_cons.mp hj with rfl | hj'
    · by_cases hcond : areaOf j > m ∧ areaOf j > 400 * 400
      · simp only [scanIframes, hjbox, if_true, if_pos hcond] at h
        left
        exact scanIframes_ge rest (areaOf j) (some j) i
          (fun k hk => by cases hk; exact le_refl _) h
      · simp only [scanIframes, hjbox, if_true, if_neg hcond] at h
        rcases not_and_or.mp hcond with h1 | h2
        · left
          exact le_trans (not_lt.mp h1) (scanIframes_ge rest m b i hb h)
        · right
          exact not_lt.mp h2
    · by_cases hbox0 : j0.hasBox = true
      · by_cases hcond : areaOf j0 > m ∧ areaOf j0 > 400 * 400
        · simp only [scanIframes, hbox0, if_true, if_pos hcond] at h
          exact ih (areaOf j0) (some j0)
            (fun k hk => by cases hk; exact le_refl _) h j hj' hjbox
        · simp only [scanIframes, hbox0, if_true, if_neg hcond] at h
          exact ih m b hb h j hj' hjbox
      · simp only [scanIframes, hbox0, if_false] at h
        exact ih m b hb h j hj' hjbox

/-- The 800×600 iframe of the concrete scenario. -/
def iframe800 : IframeInfo := ⟨800, 600, true, true⟩

/-- The 100×100 iframe of the concrete scenario. -/
def iframe100 : IframeInfo := ⟨100, 100, true, true⟩

/-- C8: a selector-less `switchToIframe` never raises; whenever it returns
`true` it has entered an iframe whose bounding-box area exceeds the
`400 * 400` minimum and is at least the area of every other boxed iframe on
the page; with the two iframes 800×600 and 100×100 it enters the 800×600 one
and returns `true`; with zero iframes it returns `false` and stays on the
main document. -/
theorem switchToIframe_contract :
    (∀ env : IframeEnv, isOkB (switchToIframe env) = true) ∧
    (∀ (env : IframeEnv) (i : IframeInfo),
      switchToIframe env = .ok (true, some i) →
        areaOf i > 400 * 400 ∧
        ∀ j ∈ env.iframes, j.hasBox = true → areaOf j ≤ areaOf i) ∧
    switchToIframe ⟨false, [iframe800, iframe100]⟩ = .ok (true, some iframe800) ∧
    switchToIframe ⟨false, []⟩ = .ok (false, none) := by
  refine ⟨?_, ?_, rfl, rfl⟩
  · intro env
    unfold switchToIframe
    cases switchToIframeTry env <;> rfl
  · intro env i h
    unfold switchToIframe switchToIframeTry at h
    by_cases hop : env.opsFail = true
    · simp [hop] at h
    · simp only [hop, if_false, Bool.false_eq_true] at h
      by_cases hlen : env.iframes.length = 0
      · simp [hlen] at h
      · simp only [hlen, if_false] at h
        rcases hscan : scanIframes env.iframes 0 none with _ | i'
        · rw [hscan] at h
          simp at h
        · rw [hscan] at h
          dsimp only at h
          by_cases hfr : i'.hasFrame = true
          · rw [if_pos hfr] at h
            dsimp only at h
            have hii : i' = i := by
              simpa using h
            subst hii
            have hthr := scanIframes_thresh env.iframes 0 none i'
              (fun k hk => by cases hk) hscan
            have hmax := scanIframes_max env.iframes 0 none i'
              (fun k hk => by cases hk) hscan
            refine ⟨hthr, fun j hj hjb => ?_⟩
            rcases hmax j hj hjb with h1 | h2
            · exact h1
            · exact le_trans h2 (le_of_lt hthr)
          · rw [if_neg hfr] at h
            dsimp only at h
            simp at h

/-- Witness for C8: the general dominance property applied to the concrete
two-iframe page. -/
theorem switchToIframe_contract_witness :
    areaOf iframe800 > 400 * 400 ∧
    ∀ j ∈ ([iframe800, iframe100] : List IframeInfo), j.hasBox = true →
      areaOf j ≤ areaOf iframe800 :=
  switchToIframe_contract.2.1 ⟨false, [iframe800, iframe100]⟩ iframe800 rfl

/-! ### Session.screenshot — error propagation

The capture step of `BrowserbaseSession.screenshot` (browserbase-provider.ts
lines 696-715) and `LocalPlaywrightSession.screenshot` (local-provider.ts
lines 152-168). `capture` is the oracle for the underlying capture call
(`cdpSession.send('Page.captureScreenshot', ...)` resp. the raced
`page.screenshot`), already including its 10s timeout rejection; the
returned bytes are the decoded buffer. A missing or falsy-empty `data` field
of the CDP result is the empty byte list. -/

/-- `BrowserbaseSession.screenshot`, capture phase (lines 620-627 and
696-714): ensure the CDP connection, require a CDP session, capture, check
`!result || !result.data`, and wrap any failure in a propagating
`Screenshot failed:` error. The settle script (lines 631-694) has its own
try/catch and cannot make the method raise, so it does not appear here. -/
def bbScreenshot (cdp : Except String Unit) (hasCdpSession : Bool)
    (capture : Except String (List ℕ)) : Except String (List ℕ) :=
  let inner : Except String (List ℕ) :=
    match cdp with
    | .error m => .error m
    | .ok _ =>
      if !hasCdpSession then .error "CDP session not available"
      else
        match capture with
        | .error m => .error m
        | .ok data =>
          if data.isEmpty then .error "CDP screenshot returned no data"
          else .ok data
  match inner with
  | .ok d => .ok d
  | .error m => .error ("Screenshot failed: " ++ m)

/-- `LocalPlaywrightSession.screenshot`, capture phase (lines 152-168): the
raced capture's outcome is returned as-is on success — there is no emptiness
check — and any rejection is re-thrown as `Screenshot failed:`. -/
def localScreenshot (capture : Except String (List ℕ)) :
    Except String (List ℕ) :=
  match capture with
  | .ok buf => .ok buf
  | .error m => .error ("Screenshot failed: " ++ m)

/-- C9 counterexample: the local variant CAN silently return an empty buffer.
A capture that resolves with zero bytes is passed through unchanged — no
error is raised — while the Browserbase variant turns the same outcome into
a propagating `Screenshot failed: CDP screenshot returned no data`. -/
theorem screenshot_empty_buffer_cex :
    localScreenshot (.ok []) = .ok [] ∧
    bbScreenshot (.ok ()) true (.ok []) =
      .error "Screenshot failed: CDP screenshot returned no data" :=
  ⟨rfl, rfl⟩

/-- C9 amended: the Browserbase variant returns bytes only when the capture
succeeded with non-empty data, and propagates a `Screenshot failed:` error
whenever the capture fails or returns no data; the local variant propagates
capture failures the same way, but performs no emptiness check: whatever
bytes the capture resolves with — including an empty buffer — are returned
as-is. -/
theorem screenshot_error_propagation :
    (∀ (cdp : Except String Unit) (hasCdp : Bool)
      (cap : Except String (List ℕ)) (d : List ℕ),
      bbScreenshot cdp hasCdp cap = .ok d → cap = .ok d ∧ d ≠ []) ∧
    (∀ m : String, bbScreenshot (.ok ()) true (.error m) =
      .error ("Screenshot failed: " ++ m)) ∧
    (∀ m : String, localScreenshot (.error m) =
      .error ("Screenshot failed: " ++ m)) ∧
    (∀ bs : List ℕ, localScreenshot (.ok bs) = .ok bs) := by
  refine ⟨?_, fun m => rfl, fun m => rfl, fun bs => rfl⟩
  intro cdp hasCdp cap d h
  unfold bbScreenshot at h
  cases cdp with
  | error m => simp at h
  | ok u =>
    cases hasCdp with
    | false => simp at h
    | true =>
      cases cap with
      | error m => simp at h
      | ok bs =>
        by_cases hbs : bs.isEmpty = true
        · simp [hbs] at h
        · simp only [hbs] at h
          simp at h
          subst h
          refine ⟨rfl, fun hnil => hbs ?_⟩
          simp [hnil]

/-- Witness for C9's amended theorem: a successful non-empty capture. -/
theorem screenshot_error_propagation_witness :
    (Except.ok [1, 2] : Except String (List ℕ)) = .ok [1, 2] ∧
    ([1, 2] : List ℕ) ≠ [] :=
  screenshot_error_propagation.1 (.ok ()) true (.ok [1, 2]) [1, 2] rfl

/-! Sanity checks on the engine model. -/

example :
    executeActions
      ⟨fun _ => .ok (), fun c => match c with | .wait ms => ms | _ => 10⟩
      ⟨30, 10, 60⟩ ⟨0, [], []⟩ [.wait (some 1)] =
    (⟨1000, [.wait 1000], []⟩, none) := by decide

example : msgMentionsTimeout "element not found" = false := by decide

example : msgMentionsTimeout "Action timeout" = true := by decide

end DreamUp
